import Mathlib

set_option linter.unusedVariables false

/-!
Shallow embedding of the snapshot-pv-provisioner repository
(rootfs/volume-snapshot): the provisioning reconciler in
src/cmd/snapshot-pv-provisioner/snapshot-pv-provisioner.go (which holds two
generations of the program: a TPR-based variant and a CRD-based variant,
embedded below in namespaces Tpr and Crd) and the baseline hostpath backend
plugin in src/unnamed/part_000 (embedded in namespace Hostpath).

Go maps are modelled as association lists with first-match lookup (an insert
prepends, so reads see the last write, matching Go map semantics); Go nil
pointers are modelled with Option; Go errors with the inductive GoError; a Go
runtime nil-dereference panic with the Outcome type.  Client calls made by the
reconciler are recorded in an event trace so that read-only behaviour is a
statement about the trace, not a modelling artefact.
-/

/-- First-match lookup in an association list, modelling a Go map read. -/
def lookupStr (m : List (String × String)) (k : String) : Option String :=
  match m with
  | [] => none
  | e :: rest => if e.1 = k then some e.2 else lookupStr rest k

/-- Overwriting insert, modelling assignment to a Go map key. -/
def mapSet (m : List (String × String)) (k v : String) : List (String × String) :=
  (k, v) :: m.filter (fun e => e.1 ≠ k)

/-- Model of a Go error value.  fmt.Errorf with no error argument (and
errors.New) becomes msg; fmt.Errorf formatting a nil error becomes wrapNil;
fmt.Errorf formatting a non-nil error becomes wrap (keeping the cause);
controller.IgnoredError becomes ignored, the distinguished skip outcome. -/
inductive GoError where
  | msg (s : String)
  | wrapNil (s : String)
  | wrap (s : String) (cause : GoError)
  | ignored (s : String)
deriving DecidableEq, Repr

/-- fmt.Errorf over an error-typed argument that may be nil. -/
def GoError.errorf (s : String) (e : Option GoError) : GoError :=
  match e with
  | none => .wrapNil s
  | some c => .wrap s c

/-- True exactly for the distinguished controller.IgnoredError skip outcome. -/
def GoError.isIgnored : GoError → Bool
  | .ignored _ => true
  | _ => false

/-- True when the error carries an underlying cause. -/
def GoError.hasCause : GoError → Bool
  | .wrap _ _ => true
  | _ => false

/-- One interaction of the reconciler with the outside world.  The put
constructors are the record-store writes the client interface offers; the
reconciler source never performs them, which claim C8 states over traces. -/
inductive Event where
  | getSnapshot (ns name : String)
  | getSnapshotData (name : String)
  | getPV (name : String)
  | putSnapshot (ns name : String)
  | putSnapshotData (name : String)
  | pluginRestore (tag : String)
  | pluginVolumeDelete (tag : String)
deriving DecidableEq, Repr

/-- An event that mutates a Snapshot or SnapshotData record. -/
def Event.isRecordWrite : Event → Bool
  | .putSnapshot _ _ => true
  | .putSnapshotData _ => true
  | _ => false

/-- Result of running Go code that can hit a runtime panic
(nil pointer dereference). -/
inductive Outcome (α : Type) where
  | ok (val : α)
  | panicked (msg : String)
deriving DecidableEq, Repr

/- ## Record types (fields the source reads and writes) -/

structure HostPathVolumeSource where
  path : String
deriving DecidableEq, Repr

structure AWSElasticBlockStoreVolumeSource where
  volumeID : String
deriving DecidableEq, Repr

/-- v1.PersistentVolumeSource: a struct of pointers, one per backend; the Go
type does not force exactly one to be set. -/
structure PersistentVolumeSource where
  hostPath : Option HostPathVolumeSource
  awsElasticBlockStore : Option AWSElasticBlockStoreVolumeSource
deriving DecidableEq, Repr

structure PersistentVolumeSpec where
  reclaimPolicy : String
  accessModes : List String
  capacity : List (String × String)
  source : PersistentVolumeSource
deriving DecidableEq, Repr

structure PersistentVolume where
  name : String
  annotations : List (String × String)
  labels : Option (List (String × String))
  spec : PersistentVolumeSpec
deriving DecidableEq, Repr

structure VolumeSnapshotSpec where
  snapshotDataName : String
deriving DecidableEq, Repr

structure VolumeSnapshot where
  name : String
  ns : String
  spec : VolumeSnapshotSpec
deriving DecidableEq, Repr

structure HostPathVolumeSnapshotSource where
  path : String
deriving DecidableEq, Repr

structure AWSVolumeSnapshotSource where
  snapshotID : String
deriving DecidableEq, Repr

structure ObjectRef where
  name : String
deriving DecidableEq, Repr

/-- VolumeSnapshotDataSpec: the backend-specific source union (a struct of
pointers) plus the optional back-reference to the originating PV. -/
structure VolumeSnapshotDataSpec where
  hostPath : Option HostPathVolumeSnapshotSource
  awsElasticBlockStore : Option AWSVolumeSnapshotSource
  persistentVolumeRef : Option ObjectRef
deriving DecidableEq, Repr

structure VolumeSnapshotData where
  name : String
  spec : VolumeSnapshotDataSpec
deriving DecidableEq, Repr

structure PersistentVolumeClaim where
  ns : String
  annotations : List (String × String)
  hasSelector : Bool
  accessModes : List String
  requests : List (String × String)
deriving DecidableEq, Repr

/-- controller.VolumeOptions, restricted to the fields the source reads. -/
structure VolumeOptions where
  pvc : PersistentVolumeClaim
  pvName : String
  reclaimPolicy : String
  parameters : List (String × String)
deriving DecidableEq, Repr

/- ## Plugin interface and registry -/

/-- The part of the volume.VolumePlugin interface the reconciler invokes.
Plugins are modelled as pure functions of the arguments the reconciler
passes; the hostpath plugin's filesystem effects are embedded separately in
namespace Hostpath at the filesystem level. -/
structure VolumePlugin where
  snapshotRestore : VolumeSnapshotData → PersistentVolumeClaim → String →
      List (String × String) →
      Option PersistentVolumeSource × Option (List (String × String)) × Option GoError
  volumeDelete : PersistentVolume → Option GoError

/-- The volumePlugins global map: volume-type tag to plugin. -/
abbrev PluginMap := List (String × VolumePlugin)

/-- Go map read on the plugin registry. -/
def lookupPlugin (m : PluginMap) (k : String) : Option VolumePlugin :=
  match m with
  | [] => none
  | e :: rest => if e.1 = k then some e.2 else lookupPlugin rest k

/- ## Constants and record store -/

def provisionerIDAnn : String := "snapshotProvisionerIdentity"

/-- Modelled from the spec: the snapshot-reference annotation key is the
constant SnapshotPVCAnnotation from pkg/client, which is not under src/; the
spec calls it a fixed string constant shared between the reconciler and the
record producers, so its exact value is irrelevant to every claim. -/
def snapshotPVCAnn : String := "snapshot.alpha.kubernetes.io/snapshot"

/-- The snapshotProvisioner receiver: of its fields the algorithms read only
the identity string (the client handles are represented by the World the
operations receive). -/
structure SnapshotProvisioner where
  identity : String
deriving DecidableEq, Repr

/-- The record store the reconciler's client calls read: Snapshot records
keyed by (namespace, name), SnapshotData records keyed by name, and PV
records keyed by name.  A Get on an absent key models the client returning a
non-nil error. -/
structure World where
  snapshots : List ((String × String) × VolumeSnapshot)
  snapshotDatas : List (String × VolumeSnapshotData)
  pvs : List (String × PersistentVolume)

/-- First-match lookup in an association list keyed by a decidable type. -/
def lookupAssoc {κ α : Type} [DecidableEq κ] (m : List (κ × α)) (k : κ) : Option α :=
  match m with
  | [] => none
  | e :: rest => if e.1 = k then some e.2 else lookupAssoc rest k

def getSnapshot (w : World) (ns name : String) : Option VolumeSnapshot :=
  lookupAssoc w.snapshots (ns, name)

def getSnapshotData (w : World) (name : String) : Option VolumeSnapshotData :=
  lookupAssoc w.snapshotDatas name

def getPV (w : World) (name : String) : Option PersistentVolume :=
  lookupAssoc w.pvs name

/- ## Volume-type tag accessors -/

/-- Modelled from the spec: GetSupportedVolumeFromSnapshotDataSpec lives in
pkg/apis/tpr/v1, which is not under src/.  Per the spec it is the single
accessor over the SnapshotData backend-specific source union that returns the
populated variant's tag, with zero or more than one populated variant failing
resolution (the empty-string sentinel). -/
def GetSupportedVolumeFromSnapshotDataSpec (spec : VolumeSnapshotDataSpec) : String :=
  match spec.hostPath, spec.awsElasticBlockStore with
  | some _, none => "hostPath"
  | none, some _ => "aws_ebs"
  | _, _ => ""

/-- Modelled from the spec: GetSupportedVolumeFromPVSpec lives in
pkg/apis/crd/v1, which is not under src/.  It is the same single accessor
shape over the PV's backend-specific location union. -/
def GetSupportedVolumeFromPVSpec (spec : PersistentVolumeSpec) : String :=
  match spec.source.hostPath, spec.source.awsElasticBlockStore with
  | some _, none => "hostPath"
  | none, some _ => "aws_ebs"
  | _, _ => ""

/- ## TPR-variant reconciler (first half of snapshot-pv-provisioner.go) -/

namespace Tpr

/-- snapshotRestore (TPR variant, lines 68-90): determine the volume type from
the SnapshotData source union, look up the plugin, invoke its SnapshotRestore;
on plugin error the source logs a warning and falls through to return
nil, nil, nil (the error is dropped); on success the source logs by
dereferencing the returned volume source before returning it. -/
def snapshotRestore (plugins : PluginMap) (snapshotName : String)
    (snapshotData : VolumeSnapshotData) (options : VolumeOptions) :
    Outcome (Option PersistentVolumeSource × Option (List (String × String)) ×
      Option GoError) × List Event :=
  let spec := snapshotData.spec
  let volumeType := GetSupportedVolumeFromSnapshotDataSpec spec
  if volumeType = "" then
    (.ok (none, none, some (.msg "unsupported volume type found in PV")), [])
  else
    match lookupPlugin plugins volumeType with
    | none =>
      (.ok (none, none, some (.msg (volumeType ++ " is not supported volume"))), [])
    | some plugin =>
      match plugin.snapshotRestore snapshotData options.pvc options.pvName
          options.parameters with
      | (pvSrc, labels, err) =>
        let tr := [Event.pluginRestore volumeType]
        match err with
        | some _ => (.ok (none, none, none), tr)
        | none =>
          match pvSrc with
          | none =>
            (.panicked "invalid memory address or nil pointer dereference", tr)
          | some s => (.ok (some s, labels, none), tr)

/-- Provision (TPR variant, lines 93-161): selector rejection, snapshot
annotation, Snapshot and SnapshotData resolution, restore, and PV assembly. -/
def Provision (p : SnapshotProvisioner) (plugins : PluginMap) (w : World)
    (options : VolumeOptions) :
    Outcome (Option PersistentVolume × Option GoError) × List Event :=
  if options.pvc.hasSelector then
    (.ok (none, some (.msg "claim Selector is not supported")), [])
  else
    match lookupStr options.pvc.annotations snapshotPVCAnn with
    | none => (.ok (none, some (.msg "snapshot annotation not found on PV")), [])
    | some snapshotName =>
      match getSnapshot w options.pvc.ns snapshotName with
      | none =>
        (.ok (none, some (.wrap ("failed to retrieve VolumeSnapshot " ++ snapshotName)
            (.msg "not found"))),
         [.getSnapshot options.pvc.ns snapshotName])
      | some snapshot =>
        if snapshot.spec.snapshotDataName = "" then
          (.ok (none, some (.msg ("VolumeSnapshot " ++ snapshotName ++
              " is not bound to any VolumeSnapshotData"))),
           [.getSnapshot options.pvc.ns snapshotName])
        else
          match getSnapshotData w snapshot.spec.snapshotDataName with
          | none =>
            (.ok (none, some (.wrap ("failed to retrieve VolumeSnapshotData " ++
                snapshot.spec.snapshotDataName) (.msg "not found"))),
             [.getSnapshot options.pvc.ns snapshotName,
              .getSnapshotData snapshot.spec.snapshotDataName])
          | some snapshotData =>
            match snapshotRestore plugins snapshot.spec.snapshotDataName
                snapshotData options with
            | (.panicked m, tr) =>
              (.panicked m,
               [.getSnapshot options.pvc.ns snapshotName,
                .getSnapshotData snapshot.spec.snapshotDataName] ++ tr)
            | (.ok (pvSrc, labels, err), tr) =>
              let trace := [Event.getSnapshot options.pvc.ns snapshotName,
                Event.getSnapshotData snapshot.spec.snapshotDataName] ++ tr
              match err, pvSrc with
              | some e, _ =>
                (.ok (none, some (GoError.errorf
                    ("failed to create a PV from snapshot " ++ snapshotName)
                    (some e))), trace)
              | none, none =>
                (.ok (none, some (GoError.errorf
                    ("failed to create a PV from snapshot " ++ snapshotName)
                    none)), trace)
              | none, some src =>
                let base : PersistentVolume :=
                  { name := options.pvName
                    annotations := [(provisionerIDAnn, p.identity)]
                    labels := none
                    spec :=
                      { reclaimPolicy := options.reclaimPolicy
                        accessModes := options.pvc.accessModes
                        capacity :=
                          [("storage", (lookupStr options.pvc.requests "storage").getD "")]
                        source := src } }
                let pv :=
                  match labels with
                  | none => base
                  | some ls =>
                    if ls.length ≠ 0 then
                      { base with
                          labels := some (ls.foldl (fun m e => mapSet m e.1 e.2) []) }
                    else base
                (.ok (some pv, none), trace)

/-- Delete (TPR variant, lines 165-175): ownership checks only; after they
pass the function returns nil without any backend dispatch. -/
def Delete (p : SnapshotProvisioner) (volume : PersistentVolume) :
    Option GoError × List Event :=
  match lookupStr volume.annotations provisionerIDAnn with
  | none => (some (.msg "identity annotation not found on PV"), [])
  | some ann =>
    if ann ≠ p.identity then
      (some (.ignored "identity annotation on PV does not match ours"), [])
    else (none, [])

/-- buildVolumePlugins (TPR variant, lines 241-256): the aws plugin is
registered only when the configured provider is aws and cloud-client
initialisation returned a non-nil cloud and nil error; otherwise a warning is
logged; the hostPath plugin is registered unconditionally at the end.
The plugin constructors live in packages outside src/, so the plugin values
are parameters. -/
def buildVolumePlugins (cloudProvider : String)
    (cloudRes : Option String) (cloudErr : Option GoError)
    (awsPlugin hostPathPlugin : VolumePlugin) : PluginMap × List String :=
  let step :=
    if cloudProvider.length ≠ 0 then
      if cloudErr.isNone && cloudRes.isSome then
        (if cloudProvider = "aws" then [("aws_ebs", awsPlugin)] else ([] : PluginMap), ([] : List String))
      else (([] : PluginMap), ["failed to initialize aws cloudprovider"])
    else (([] : PluginMap), ([] : List String))
  (("hostPath", hostPathPlugin) :: step.1, step.2)

end Tpr

/- ## CRD-variant reconciler (second half of snapshot-pv-provisioner.go) -/

namespace Crd

/-- getPVFromVolumeSnapshotDataSpec (lines 328-341): follow the SnapshotData's
PersistentVolumeRef to the PV record. -/
def getPVFromVolumeSnapshotDataSpec (w : World) (snapshotDataSpec : VolumeSnapshotDataSpec) :
    (Option PersistentVolume × Option GoError) × List Event :=
  match snapshotDataSpec.persistentVolumeRef with
  | none => ((none, some (.msg "VolumeSnapshotDataSpec is not bound to any PV")), [])
  | some ref =>
    if ref.name = "" then
      ((none, some (.msg "The PV name is not specified in snapshotdata")), [])
    else
      match getPV w ref.name with
      | none =>
        ((none, some (.wrap ("Failed to retrieve PV " ++ ref.name ++ " from the API server")
            (.msg "not found"))), [.getPV ref.name])
      | some pv => ((some pv, none), [.getPV ref.name])

/-- snapshotRestore (CRD variant, lines 343-369): resolve the PV behind the
SnapshotData, determine the volume type from the PV's spec, look up the
plugin and invoke its SnapshotRestore.  The source then tests
err != nil && pv == nil; pv is never nil on this path, so on a plugin error
the else branch logs by dereferencing the nil volume source. -/
def snapshotRestore (plugins : PluginMap) (w : World) (snapshotName : String)
    (snapshotData : VolumeSnapshotData) (options : VolumeOptions) :
    Outcome (Option PersistentVolumeSource × Option (List (String × String)) ×
      Option GoError) × List Event :=
  let spec := snapshotData.spec
  match getPVFromVolumeSnapshotDataSpec w spec with
  | ((pvOpt, some e), tr) => (.ok (none, none, some e), tr)
  | ((pvOpt, none), tr) =>
    match pvOpt with
    | none =>
      -- taking &pv.Spec on a nil pv (the client never produces this pair)
      (.panicked "invalid memory address or nil pointer dereference", tr)
    | some pv =>
      let volumeType := GetSupportedVolumeFromPVSpec pv.spec
      if volumeType = "" then
        (.ok (none, none, some (.msg "unsupported volume type found in PV")), tr)
      else
        match lookupPlugin plugins volumeType with
        | none =>
          (.ok (none, none, some (.msg (volumeType ++ " is not supported volume"))), tr)
        | some plugin =>
          match plugin.snapshotRestore snapshotData options.pvc options.pvName
              options.parameters with
          | (pvSrc, labels, err) =>
            let tr2 := tr ++ [Event.pluginRestore volumeType]
            if err.isSome && pvOpt.isNone then
              (.ok (none, none, none), tr2)
            else
              match pvSrc with
              | none =>
                (.panicked "invalid memory address or nil pointer dereference", tr2)
              | some s => (.ok (some s, labels, none), tr2)

/-- Provision (CRD variant, lines 372-440): identical chain to the TPR
variant around the CRD snapshotRestore. -/
def Provision (p : SnapshotProvisioner) (plugins : PluginMap) (w : World)
    (options : VolumeOptions) :
    Outcome (Option PersistentVolume × Option GoError) × List Event :=
  if options.pvc.hasSelector then
    (.ok (none, some (.msg "claim Selector is not supported")), [])
  else
    match lookupStr options.pvc.annotations snapshotPVCAnn with
    | none => (.ok (none, some (.msg "snapshot annotation not found on PV")), [])
    | some snapshotName =>
      match getSnapshot w options.pvc.ns snapshotName with
      | none =>
        (.ok (none, some (.wrap ("failed to retrieve VolumeSnapshot " ++ snapshotName)
            (.msg "not found"))),
         [.getSnapshot options.pvc.ns snapshotName])
      | some snapshot =>
        if snapshot.spec.snapshotDataName = "" then
          (.ok (none, some (.msg ("VolumeSnapshot " ++ snapshotName ++
              " is not bound to any VolumeSnapshotData"))),
           [.getSnapshot options.pvc.ns snapshotName])
        else
          match getSnapshotData w snapshot.spec.snapshotDataName with
          | none =>
            (.ok (none, some (.wrap ("failed to retrieve VolumeSnapshotData " ++
                snapshot.spec.snapshotDataName) (.msg "not found"))),
             [.getSnapshot options.pvc.ns snapshotName,
              .getSnapshotData snapshot.spec.snapshotDataName])
          | some snapshotData =>
            match snapshotRestore plugins w snapshot.spec.snapshotDataName
                snapshotData options with
            | (.panicked m, tr) =>
              (.panicked m,
               [.getSnapshot options.pvc.ns snapshotName,
                .getSnapshotData snapshot.spec.snapshotDataName] ++ tr)
            | (.ok (pvSrc, labels, err), tr) =>
              let trace := [Event.getSnapshot options.pvc.ns snapshotName,
                Event.getSnapshotData snapshot.spec.snapshotDataName] ++ tr
              match err, pvSrc with
              | some e, _ =>
                (.ok (none, some (GoError.errorf
                    ("failed to create a PV from snapshot " ++ snapshotName)
                    (some e))), trace)
              | none, none =>
                (.ok (none, some (GoError.errorf
                    ("failed to create a PV from snapshot " ++ snapshotName)
                    none)), trace)
              | none, some src =>
                let base : PersistentVolume :=
                  { name := options.pvName
                    annotations := [(provisionerIDAnn, p.identity)]
                    labels := none
                    spec :=
                      { reclaimPolicy := options.reclaimPolicy
                        accessModes := options.pvc.accessModes
                        capacity :=
                          [("storage", (lookupStr options.pvc.requests "storage").getD "")]
                        source := src } }
                let pv :=
                  match labels with
                  | none => base
                  | some ls =>
                    if ls.length ≠ 0 then
                      { base with
                          labels := some (ls.foldl (fun m e => mapSet m e.1 e.2) []) }
                    else base
                (.ok (some pv, none), trace)

/-- Delete (CRD variant, lines 444-464): ownership checks, then volume-type
dispatch and the plugin's VolumeDelete. -/
def Delete (p : SnapshotProvisioner) (plugins : PluginMap)
    (volume : PersistentVolume) : Option GoError × List Event :=
  match lookupStr volume.annotations provisionerIDAnn with
  | none => (some (.msg "identity annotation not found on PV"), [])
  | some ann =>
    if ann ≠ p.identity then
      (some (.ignored "identity annotation on PV does not match ours"), [])
    else
      let volumeType := GetSupportedVolumeFromPVSpec volume.spec
      if volumeType = "" then
        (some (.msg "unsupported volume type found in PV"), [])
      else
        match lookupPlugin plugins volumeType with
        | none => (some (.msg (volumeType ++ " is not supported volume")), [])
        | some plugin =>
          (plugin.volumeDelete volume, [.pluginVolumeDelete volumeType])

/-- buildVolumePlugins (CRD variant, lines 530-558): aws, gce and openstack
plugins are each registered only when that provider is configured and cloud
initialisation returned a non-nil cloud and nil error; a failed
initialisation only logs a warning; the hostPath plugin is registered
unconditionally at the end.  The plugin constructors live in packages outside
src/, so the plugin values are parameters. -/
def buildVolumePlugins (cloudProvider : String)
    (cloudRes : Option String) (cloudErr : Option GoError)
    (awsPlugin gcePlugin cinderPlugin hostPathPlugin : VolumePlugin) :
    PluginMap × List String :=
  let step :=
    if cloudProvider.length ≠ 0 then
      if cloudErr.isNone && cloudRes.isSome then
        let m : PluginMap := []
        let m := if cloudProvider = "aws" then ("aws_ebs", awsPlugin) :: m else m
        let m := if cloudProvider = "gce" then ("gce_pd", gcePlugin) :: m else m
        let m := if cloudProvider = "openstack" then ("cinder", cinderPlugin) :: m else m
        (m, ([] : List String))
      else (([] : PluginMap), ["failed to initialize aws cloudprovider"])
    else (([] : PluginMap), ([] : List String))
  (("hostPath", hostPathPlugin) :: step.1, step.2)

end Crd

/- ## Hostpath plugin at the filesystem level (src/unnamed/part_000) -/

namespace Hostpath

/-- A filesystem path as its components; the Go source manipulates paths as
strings built by concatenation, which this embedding performs on component
lists. -/
abbrev FPath := List String

/-- The modelled host state the plugin's external commands act on: regular
files (path to byte content), tar archives produced by the external tool
(archive file path to the archived entries, each a path relative to the
archived root together with its bytes), and the uuid source.
uuid.NewUUID is modelled as a counter-indexed name: the repository relies on
the generator never colliding, and the freshness the proofs need is stated as
an explicit hypothesis where it matters. -/
structure HostFS where
  files : List (FPath × List Nat)
  archives : List (FPath × List (FPath × List Nat))
  uuidCounter : Nat
deriving DecidableEq, Repr

/-- The name uuid.NewUUID returns at a given state of the generator. -/
def uuidGen (n : Nat) : String := "uuid-" ++ toString n

/-- The file tree rooted at a path: every file under the path, keyed
relatively. -/
def treeAt (files : List (FPath × List Nat)) (p : FPath) : List (FPath × List Nat) :=
  (files.filter (fun e => p.isPrefixOf e.1)).map (fun e => (e.1.drop p.length, e.2))

/-- const depot = "/tmp/" -/
def depot : FPath := ["tmp"]

/-- const restorePoint = "/restore/" -/
def restorePoint : FPath := ["restore"]

/-- The external command tar czvf file path: on success it records the tree
rooted at path as the archive's entries.  Exit status of the external tool is
the sole success or failure signal, so it enters the model as the tarOk
input. -/
def tarCreate (fs : HostFS) (file : FPath) (path : FPath) (tarOk : Bool) :
    HostFS × Option GoError :=
  if tarOk then
    ({ fs with archives := (file, treeAt fs.files path) :: fs.archives }, none)
  else (fs, some (.msg "exit status 1"))

/-- The external command tar xzvf snapId -C dir: on success it places the
archive's entries under dir; a missing archive makes the tool fail. -/
def tarExtract (fs : HostFS) (snapId : FPath) (dir : FPath) (tarOk : Bool) :
    HostFS × Option GoError :=
  match lookupAssoc fs.archives snapId with
  | none => (fs, some (.msg "exit status 2"))
  | some entries =>
    if tarOk then
      ({ fs with files := entries.map (fun e => (dir ++ e.1, e.2)) ++ fs.files }, none)
    else (fs, some (.msg "exit status 1"))

/-- Result of hostPathPlugin.SnapshotCreate: the updated host state, the
returned VolumeSnapshotDataSource (its HostPath path), and the returned
error. -/
structure CreateResult where
  fs : HostFS
  source : Option FPath
  err : Option GoError
deriving DecidableEq, Repr

/-- SnapshotCreate (part_000 lines 53-66): reject a spec without a HostPath
source; otherwise draw a fresh archive name under the depot, run the external
tar, and return the descriptor for the new archive paired with the command's
error — the descriptor is built before the command runs and is returned in
both cases. -/
def SnapshotCreate (fs : HostFS) (tarOk : Bool) (spec : Option FPath) : CreateResult :=
  match spec with
  | none => { fs := fs, source := none, err := some (.msg "invalid PV spec") }
  | some path =>
    let file : FPath := depot ++ [uuidGen fs.uuidCounter ++ ".tgz"]
    let fs1 : HostFS := { fs with uuidCounter := fs.uuidCounter + 1 }
    let run := tarCreate fs1 file path tarOk
    { fs := run.1, source := some file, err := run.2 }

/-- SnapshotDelete (part_000 lines 68-74): reject a descriptor without a
HostPath source; otherwise remove the archive file. -/
def SnapshotDelete (fs : HostFS) (src : Option FPath) : HostFS × Option GoError :=
  match src with
  | none => (fs, some (.msg "invalid VolumeSnapshotDataSource"))
  | some path =>
    match lookupAssoc fs.archives path with
    | none => (fs, some (.msg "remove: no such file or directory"))
    | some _ => ({ fs with archives := fs.archives.filter (fun e => e.1 ≠ path) }, none)

/-- Result of hostPathPlugin.SnapshotRestore: the updated host state, the
returned PersistentVolumeSource HostPath path, the returned labels, and the
returned error. -/
structure RestoreResult where
  fs : HostFS
  pvSource : Option FPath
  labels : Option (List (String × String))
  err : Option GoError
deriving DecidableEq, Repr

/-- SnapshotRestore (part_000 lines 76-96): reject missing snapshot data or a
missing HostPath source; otherwise draw a fresh directory under the restore
point, extract the archive there with the external tar, and on success report
the directory as the new volume's location (labels are always nil). -/
def SnapshotRestore (fs : HostFS) (tarOk : Bool) (snapshotDataSource : Option FPath) :
    RestoreResult :=
  match snapshotDataSource with
  | none =>
    { fs := fs, pvSource := none, labels := none
      err := some (.msg "failed to retrieve Snapshot spec") }
  | some snapId =>
    let dir : FPath := restorePoint ++ [uuidGen fs.uuidCounter]
    let fs1 : HostFS := { fs with uuidCounter := fs.uuidCounter + 1 }
    let run := tarExtract fs1 snapId dir tarOk
    match run.2 with
    | some e =>
      { fs := run.1, pvSource := none, labels := none
        err := some (.wrap ("failed to restore") e) }
    | none => { fs := run.1, pvSource := some dir, labels := none, err := none }

end Hostpath

/- ## Concrete fixtures used by closed theorems and witnesses -/

/-- A backend plugin whose SnapshotRestore fails (nil source, nil labels,
non-nil error) and whose VolumeDelete succeeds. -/
def failingPlugin : VolumePlugin :=
  { snapshotRestore := fun _ _ _ _ => (none, none, some (.msg "backend failure"))
    volumeDelete := fun _ => none }

/-- A backend plugin whose SnapshotRestore succeeds with a hostPath location
and one label, and whose VolumeDelete fails. -/
def succeedingPlugin : VolumePlugin :=
  { snapshotRestore := fun _ _ _ _ =>
      (some { hostPath := some { path := "/restore/r1" }, awsElasticBlockStore := none },
       some [("backend", "hostpath")], none)
    volumeDelete := fun _ => some (.msg "delete failed") }

/-- SnapshotData d1 with a populated hostPath source and no PV reference. -/
def exDataHost : VolumeSnapshotData :=
  { name := "d1"
    spec := { hostPath := some { path := "/tmp/abc.tgz" }
              awsElasticBlockStore := none
              persistentVolumeRef := none } }

/-- A PV record named pv0 with a hostPath location. -/
def exPV : PersistentVolume :=
  { name := "pv0"
    annotations := []
    labels := none
    spec := { reclaimPolicy := "Delete"
              accessModes := []
              capacity := []
              source := { hostPath := some { path := "/exported/path" }
                          awsElasticBlockStore := none } } }

/-- SnapshotData d1 with zero populated source variants but a reference to
PV pv0. -/
def exDataNoVariant : VolumeSnapshotData :=
  { name := "d1"
    spec := { hostPath := none
              awsElasticBlockStore := none
              persistentVolumeRef := some { name := "pv0" } } }

/-- A record store holding snapshot s1 in namespace ns1 bound to d1 (with a
populated hostPath source) and the PV pv0. -/
def exWorldHost : World :=
  { snapshots := [(("ns1", "s1"),
      { name := "s1", ns := "ns1", spec := { snapshotDataName := "d1" } })]
    snapshotDatas := [("d1", exDataHost)]
    pvs := [("pv0", exPV)] }

/-- Like exWorldHost but d1 has zero populated source variants and references
pv0. -/
def exWorldNoVariant : World :=
  { snapshots := [(("ns1", "s1"),
      { name := "s1", ns := "ns1", spec := { snapshotDataName := "d1" } })]
    snapshotDatas := [("d1", exDataNoVariant)]
    pvs := [("pv0", exPV)] }

/-- Provisioning options: a claim in ns1 annotated with snapshot s1, no
selector, requesting 1Gi. -/
def exOptions : VolumeOptions :=
  { pvc := { ns := "ns1"
             annotations := [(snapshotPVCAnn, "s1")]
             hasSelector := false
             accessModes := ["ReadWriteOnce"]
             requests := [("storage", "1Gi")] }
    pvName := "pvc-uid-1"
    reclaimPolicy := "Delete"
    parameters := [] }

/- ## C1 -/

/-- C1: in the TPR-variant flow, when Snapshot and SnapshotData resolve, the
plugin is found, and the plugin's SnapshotRestore returns a non-nil error,
the claim requires Provision to fail with an error wrapping the plugin's
cause; the code instead drops the plugin error in snapshotRestore (returning
nil, nil, nil) so Provision's failure is built from a nil error and carries
no cause.  This theorem evaluates the code at the failing input: the plugin
error is non-nil, yet the Provision failure is the no-cause wrapNil form. -/
theorem c1_tpr_provision_failure_carries_no_cause :
    (failingPlugin.snapshotRestore exDataHost exOptions.pvc exOptions.pvName
        exOptions.parameters).2.2 = some (.msg "backend failure") ∧
    (Tpr.Provision { identity := "prov-A" } [("hostPath", failingPlugin)]
        exWorldHost exOptions).1
      = .ok (none, some (.wrapNil "failed to create a PV from snapshot s1")) ∧
    GoError.hasCause (.wrapNil "failed to create a PV from snapshot s1") = false := by
  exact ⟨rfl, rfl, rfl⟩

/- ## C9 -/

/-- C9: the claim states that in the CRD-variant snapshotRestore a plugin
error (with its nil volume source) takes the error branch and causes no
panic.  The code tests err non-nil AND pv nil, and pv is never nil there, so
on a plugin error the logging branch dereferences the nil volume source: the
code panics.  This theorem evaluates the code at the failing input. -/
theorem c9_crd_snapshot_restore_panics_on_plugin_error :
    (Crd.snapshotRestore [("hostPath", failingPlugin)] exWorldNoVariant "d1"
        exDataNoVariant exOptions).1
      = .panicked "invalid memory address or nil pointer dereference" := by
  exact rfl

/- ## C10 -/

/-- C10: for every PersistentVolumeSpec with a populated HostPath source, the
hostpath SnapshotCreate returns a non-nil descriptor holding a freshly
generated archive path under the fixed staging directory regardless of the
external command's outcome, and when the external archive command fails the
caller receives that descriptor together with a non-nil error. -/
theorem c10_hostpath_create_returns_descriptor_even_on_failure
    (fs : Hostpath.HostFS) (path : Hostpath.FPath) (tarOk : Bool) :
    (Hostpath.SnapshotCreate fs tarOk (some path)).source
        = some (Hostpath.depot ++ [Hostpath.uuidGen fs.uuidCounter ++ ".tgz"]) ∧
    (Hostpath.SnapshotCreate fs false (some path)).source
        = some (Hostpath.depot ++ [Hostpath.uuidGen fs.uuidCounter ++ ".tgz"]) ∧
    (Hostpath.SnapshotCreate fs false (some path)).err = some (.msg "exit status 1") := by
  refine ⟨?_, rfl, rfl⟩
  cases tarOk <;> rfl

/- ## C2 -/

/-- C2: for every volume passed to Delete (both variants): a missing
ownership annotation yields the hard NotOwned error, and a present but
mismatched annotation yields the distinguished IgnoredError skip outcome with
the plugin's VolumeDelete never invoked (the event trace is empty). -/
theorem c2_delete_ownership_gate (p : SnapshotProvisioner) (plugins : PluginMap)
    (volume : PersistentVolume) :
    (lookupStr volume.annotations provisionerIDAnn = none →
      Tpr.Delete p volume
          = (some (.msg "identity annotation not found on PV"), []) ∧
      Crd.Delete p plugins volume
          = (some (.msg "identity annotation not found on PV"), [])) ∧
    (∀ a, lookupStr volume.annotations provisionerIDAnn = some a →
      a ≠ p.identity →
      Tpr.Delete p volume
          = (some (.ignored "identity annotation on PV does not match ours"), []) ∧
      Crd.Delete p plugins volume
          = (some (.ignored "identity annotation on PV does not match ours"), [])) := by
  constructor
  · intro h
    constructor <;> simp [Tpr.Delete, Crd.Delete, h]
  · intro a ha hne
    constructor <;> simp [Tpr.Delete, Crd.Delete, ha, hne]

/-- C2 witness: a volume with no ownership annotation gets the hard error in
both variants, and a volume owned by prov-A deleted by identity prov-B gets
the skip outcome with an empty trace in both variants. -/
theorem c2_delete_ownership_gate_witness :
    (Tpr.Delete { identity := "prov-B" } exPV
        = (some (.msg "identity annotation not found on PV"), []) ∧
     Crd.Delete { identity := "prov-B" } [("hostPath", succeedingPlugin)] exPV
        = (some (.msg "identity annotation not found on PV"), [])) ∧
    (Tpr.Delete { identity := "prov-B" }
        { exPV with annotations := [(provisionerIDAnn, "prov-A")] }
        = (some (.ignored "identity annotation on PV does not match ours"), []) ∧
     Crd.Delete { identity := "prov-B" } [("hostPath", succeedingPlugin)]
        { exPV with annotations := [(provisionerIDAnn, "prov-A")] }
        = (some (.ignored "identity annotation on PV does not match ours"), [])) := by
  constructor
  · exact (c2_delete_ownership_gate { identity := "prov-B" }
      [("hostPath", succeedingPlugin)] exPV).1 (by rfl)
  · exact (c2_delete_ownership_gate { identity := "prov-B" }
      [("hostPath", succeedingPlugin)]
      { exPV with annotations := [(provisionerIDAnn, "prov-A")] }).2
      "prov-A" (by rfl) (by decide)

/- ## C3 -/

/-- C3 counterexample: the claim fails on the TPR-variant Delete (the cited
lines 165-175).  A hostPath-located volume owned by prov-A, deleted by
identity prov-A, passes the ownership check; its volume type tag is
determinable (hostPath) and a plugin is registered for it whose VolumeDelete
returns an error; yet the TPR Delete returns nil success with an empty event
trace: it determines no tag, invokes no VolumeDelete, and propagates
nothing. -/
theorem c3_counterexample_tpr_delete_no_dispatch :
    Tpr.Delete { identity := "prov-A" }
        { exPV with annotations := [(provisionerIDAnn, "prov-A")] }
      = (none, []) ∧
    GetSupportedVolumeFromPVSpec
        ({ exPV with annotations := [(provisionerIDAnn, "prov-A")] }
          : PersistentVolume).spec = "hostPath" ∧
    lookupPlugin [("hostPath", succeedingPlugin)] "hostPath"
      = some succeedingPlugin ∧
    succeedingPlugin.volumeDelete
        { exPV with annotations := [(provisionerIDAnn, "prov-A")] }
      = some (.msg "delete failed") := by
  exact ⟨rfl, rfl, rfl, rfl⟩

/-- C3 (amended): for every volume passing the ownership check, the
CRD-variant Delete determines the volume type tag from the volume's
backend-specific location union; an empty tag or an unregistered tag yields
the UnsupportedVolumeType failure with no plugin invoked; a registered tag
yields exactly the plugin's VolumeDelete result, propagated unchanged.  The
TPR-variant Delete performs no backend dispatch: after the ownership check
passes it returns nil success immediately, determining no tag and never
invoking VolumeDelete. -/
theorem c3_amended_delete_dispatch (p : SnapshotProvisioner) (plugins : PluginMap)
    (volume : PersistentVolume)
    (hown : lookupStr volume.annotations provisionerIDAnn = some p.identity) :
    Tpr.Delete p volume = (none, []) ∧
    (GetSupportedVolumeFromPVSpec volume.spec = "" →
      Crd.Delete p plugins volume
          = (some (.msg "unsupported volume type found in PV"), [])) ∧
    (∀ tag, GetSupportedVolumeFromPVSpec volume.spec = tag → tag ≠ "" →
      lookupPlugin plugins tag = none →
      Crd.Delete p plugins volume
          = (some (.msg (tag ++ " is not supported volume")), [])) ∧
    (∀ tag plugin, GetSupportedVolumeFromPVSpec volume.spec = tag → tag ≠ "" →
      lookupPlugin plugins tag = some plugin →
      Crd.Delete p plugins volume
          = (plugin.volumeDelete volume, [.pluginVolumeDelete tag])) := by
  refine ⟨?_, ?_, ?_, ?_⟩
  · simp [Tpr.Delete, hown]
  · intro h
    simp [Crd.Delete, hown, h]
  · intro tag htag hne hplug
    subst htag
    simp [Crd.Delete, hown, hne, hplug]
  · intro tag plugin htag hne hplug
    subst htag
    simp [Crd.Delete, hown, hne, hplug]

/-- C3 witness: a hostPath-located volume owned by prov-A, deleted by
identity prov-A against a registry holding the succeeding plugin for tag
hostPath: the CRD Delete returns exactly that plugin's VolumeDelete failure
and records the plugin invocation, while the TPR Delete returns nil success
with no invocation. -/
theorem c3_amended_delete_dispatch_witness :
    Crd.Delete { identity := "prov-A" } [("hostPath", succeedingPlugin)]
        { exPV with annotations := [(provisionerIDAnn, "prov-A")] }
      = (some (.msg "delete failed"), [.pluginVolumeDelete "hostPath"]) ∧
    Tpr.Delete { identity := "prov-A" }
        { exPV with annotations := [(provisionerIDAnn, "prov-A")] }
      = (none, []) := by
  constructor
  · exact (c3_amended_delete_dispatch { identity := "prov-A" }
      [("hostPath", succeedingPlugin)]
      { exPV with annotations := [(provisionerIDAnn, "prov-A")] }
      (by rfl)).2.2.2 "hostPath" succeedingPlugin (by rfl) (by decide) (by rfl)
  · exact (c3_amended_delete_dispatch { identity := "prov-A" }
      [("hostPath", succeedingPlugin)]
      { exPV with annotations := [(provisionerIDAnn, "prov-A")] }
      (by rfl)).1

/- ## C6 -/

/-- C6: after registry construction (both variants), the baseline hostPath
plugin is looked up successfully regardless of configuration; any registered
cloud tag implies the cloud client initialisation returned a nil error and a
non-nil cloud; and when a provider is configured but initialisation failed,
construction still completes, registers only hostPath, and emits the
warning. -/
theorem c6_build_volume_plugins (cloudProvider : String)
    (cloudRes : Option String) (cloudErr : Option GoError)
    (aws gce cinder hp : VolumePlugin) :
    lookupPlugin (Tpr.buildVolumePlugins cloudProvider cloudRes cloudErr aws hp).1
        "hostPath" = some hp ∧
    lookupPlugin
        (Crd.buildVolumePlugins cloudProvider cloudRes cloudErr aws gce cinder hp).1
        "hostPath" = some hp ∧
    (∀ t pl, t ≠ "hostPath" →
      lookupPlugin
          (Crd.buildVolumePlugins cloudProvider cloudRes cloudErr aws gce cinder hp).1
          t = some pl →
      cloudErr = none ∧ cloudRes.isSome = true) ∧
    (cloudProvider.length ≠ 0 → (cloudErr.isNone && cloudRes.isSome) = false →
      (Crd.buildVolumePlugins cloudProvider cloudRes cloudErr aws gce cinder hp).1
          = [("hostPath", hp)] ∧
      (Crd.buildVolumePlugins cloudProvider cloudRes cloudErr aws gce cinder hp).2
          = ["failed to initialize aws cloudprovider"] ∧
      (Tpr.buildVolumePlugins cloudProvider cloudRes cloudErr aws hp).1
          = [("hostPath", hp)] ∧
      (Tpr.buildVolumePlugins cloudProvider cloudRes cloudErr aws hp).2
          = ["failed to initialize aws cloudprovider"]) := by
  refine ⟨?_, ?_, ?_, ?_⟩
  · simp [Tpr.buildVolumePlugins, lookupPlugin]
  · simp [Crd.buildVolumePlugins, lookupPlugin]
  · intro t pl ht hl
    by_cases hlen : cloudProvider.length ≠ 0
    · by_cases hinit : (cloudErr.isNone && cloudRes.isSome) = true
      · exact ⟨Option.isNone_iff_eq_none.mp (Bool.and_elim_left hinit),
          Bool.and_elim_right hinit⟩
      · exfalso
        simp [Crd.buildVolumePlugins, hlen, hinit, lookupPlugin, ht] at hl
        exact ht hl.1.symm
    · exfalso
      simp [Crd.buildVolumePlugins, hlen, lookupPlugin, ht] at hl
      exact ht hl.1.symm
  · intro hlen hinit
    refine ⟨?_, ?_, ?_, ?_⟩ <;>
      simp [Crd.buildVolumePlugins, Tpr.buildVolumePlugins, hlen, hinit]

/-- C6 witness: with provider aws configured and a failed cloud client
initialisation, construction completes with only hostPath registered and the
warning emitted, and the hostPath lookup succeeds. -/
theorem c6_build_volume_plugins_witness :
    lookupPlugin (Crd.buildVolumePlugins "aws" none (some (.msg "no credentials"))
        failingPlugin failingPlugin failingPlugin succeedingPlugin).1 "hostPath"
      = some succeedingPlugin ∧
    (Crd.buildVolumePlugins "aws" none (some (.msg "no credentials"))
        failingPlugin failingPlugin failingPlugin succeedingPlugin).1
      = [("hostPath", succeedingPlugin)] ∧
    (Crd.buildVolumePlugins "aws" none (some (.msg "no credentials"))
        failingPlugin failingPlugin failingPlugin succeedingPlugin).2
      = ["failed to initialize aws cloudprovider"] := by
  refine ⟨(c6_build_volume_plugins "aws" none (some (.msg "no credentials"))
      failingPlugin failingPlugin failingPlugin succeedingPlugin).2.1, ?_, ?_⟩
  · exact ((c6_build_volume_plugins "aws" none (some (.msg "no credentials"))
      failingPlugin failingPlugin failingPlugin succeedingPlugin).2.2.2
      (by decide) (by rfl)).1
  · exact ((c6_build_volume_plugins "aws" none (some (.msg "no credentials"))
      failingPlugin failingPlugin failingPlugin succeedingPlugin).2.2.2
      (by decide) (by rfl)).2.1

/- ## C4 -/

/-- C4: every successful Provision (both variants) returns a Volume whose
location is the plugin's restore result, capacity the claim's requested
storage, access modes the claim's, reclaim policy the provisioning options',
ownership annotation exactly this instance's identity, and labels holding
exactly the plugin-returned labels merged into a fresh map (so no reserved
key — the ownership annotation lives in the untouched annotations map — is
overwritten). -/
theorem c4_provision_success_assembly
    (p : SnapshotProvisioner) (plugins : PluginMap) (w : World)
    (options : VolumeOptions) (snapName tag : String)
    (snapshot : VolumeSnapshot) (snapshotData : VolumeSnapshotData)
    (plugin : VolumePlugin) (src : PersistentVolumeSource)
    (ls : List (String × String)) (pvRec : PersistentVolume) (trg : List Event)
    (hsel : options.pvc.hasSelector = false)
    (hann : lookupStr options.pvc.annotations snapshotPVCAnn = some snapName)
    (hsnap : getSnapshot w options.pvc.ns snapName = some snapshot)
    (hbound : snapshot.spec.snapshotDataName ≠ "")
    (hdata : getSnapshotData w snapshot.spec.snapshotDataName = some snapshotData)
    (htagT : GetSupportedVolumeFromSnapshotDataSpec snapshotData.spec = tag)
    (htagne : tag ≠ "")
    (hplug : lookupPlugin plugins tag = some plugin)
    (hrestore : plugin.snapshotRestore snapshotData options.pvc options.pvName
        options.parameters = (some src, some ls, none))
    (hls : ls ≠ [])
    (hpv : Crd.getPVFromVolumeSnapshotDataSpec w snapshotData.spec
        = ((some pvRec, none), trg))
    (htagC : GetSupportedVolumeFromPVSpec pvRec.spec = tag) :
    Tpr.Provision p plugins w options
        = (.ok (some
            { name := options.pvName
              annotations := [(provisionerIDAnn, p.identity)]
              labels := some (ls.foldl (fun m e => mapSet m e.1 e.2) [])
              spec :=
                { reclaimPolicy := options.reclaimPolicy
                  accessModes := options.pvc.accessModes
                  capacity :=
                    [("storage", (lookupStr options.pvc.requests "storage").getD "")]
                  source := src } }, none),
           [.getSnapshot options.pvc.ns snapName,
            .getSnapshotData snapshot.spec.snapshotDataName,
            .pluginRestore tag]) ∧
    Crd.Provision p plugins w options
        = (.ok (some
            { name := options.pvName
              annotations := [(provisionerIDAnn, p.identity)]
              labels := some (ls.foldl (fun m e => mapSet m e.1 e.2) [])
              spec :=
                { reclaimPolicy := options.reclaimPolicy
                  accessModes := options.pvc.accessModes
                  capacity :=
                    [("storage", (lookupStr options.pvc.requests "storage").getD "")]
                  source := src } }, none),
           [Event.getSnapshot options.pvc.ns snapName,
            Event.getSnapshotData snapshot.spec.snapshotDataName] ++ trg
             ++ [Event.pluginRestore tag]) := by
  have hlen : ls.length ≠ 0 := by
    simpa [List.length_eq_zero] using hls
  constructor
  · simp [Tpr.Provision, Tpr.snapshotRestore, hsel, hann, hsnap, hbound, hdata,
      htagT, htagne, hplug, hrestore, hlen]
  · simp [Crd.Provision, Crd.snapshotRestore, hsel, hann, hsnap, hbound, hdata,
      hpv, htagC, htagne, hplug, hrestore, hlen]

/-- The snapshot record s1 bound to d1. -/
def exSnapshot : VolumeSnapshot :=
  { name := "s1", ns := "ns1", spec := { snapshotDataName := "d1" } }

/-- SnapshotData d1 with a populated hostPath source and a reference to
PV pv0 (resolvable by both variants). -/
def exDataBoth : VolumeSnapshotData :=
  { name := "d1"
    spec := { hostPath := some { path := "/tmp/abc.tgz" }
              awsElasticBlockStore := none
              persistentVolumeRef := some { name := "pv0" } } }

/-- A record store holding s1 bound to exDataBoth plus the PV pv0. -/
def exWorldBoth : World :=
  { snapshots := [(("ns1", "s1"), exSnapshot)]
    snapshotDatas := [("d1", exDataBoth)]
    pvs := [("pv0", exPV)] }

/-- C4 witness: at the concrete fixture (snapshot s1 bound to d1, hostPath
plugin succeeding with location /restore/r1 and one label), both Provisions
return the fully assembled PV. -/
theorem c4_provision_success_assembly_witness :
    Tpr.Provision { identity := "prov-A" } [("hostPath", succeedingPlugin)]
        exWorldBoth exOptions
      = (.ok (some
          { name := "pvc-uid-1"
            annotations := [(provisionerIDAnn, "prov-A")]
            labels := some [("backend", "hostpath")]
            spec :=
              { reclaimPolicy := "Delete"
                accessModes := ["ReadWriteOnce"]
                capacity := [("storage", "1Gi")]
                source := { hostPath := some { path := "/restore/r1" }
                            awsElasticBlockStore := none } } }, none),
         [.getSnapshot "ns1" "s1", .getSnapshotData "d1", .pluginRestore "hostPath"]) ∧
    Crd.Provision { identity := "prov-A" } [("hostPath", succeedingPlugin)]
        exWorldBoth exOptions
      = (.ok (some
          { name := "pvc-uid-1"
            annotations := [(provisionerIDAnn, "prov-A")]
            labels := some [("backend", "hostpath")]
            spec :=
              { reclaimPolicy := "Delete"
                accessModes := ["ReadWriteOnce"]
                capacity := [("storage", "1Gi")]
                source := { hostPath := some { path := "/restore/r1" }
                            awsElasticBlockStore := none } } }, none),
         [.getSnapshot "ns1" "s1", .getSnapshotData "d1", .getPV "pv0",
          .pluginRestore "hostPath"]) := by
  have h := c4_provision_success_assembly { identity := "prov-A" }
    [("hostPath", succeedingPlugin)] exWorldBoth exOptions "s1" "hostPath"
    exSnapshot exDataBoth succeedingPlugin
    { hostPath := some { path := "/restore/r1" }, awsElasticBlockStore := none }
    [("backend", "hostpath")] exPV [.getPV "pv0"]
    (by rfl) (by rfl) (by rfl) (by decide) (by rfl) (by rfl) (by decide)
    (by rfl) (by rfl) (by decide) (by rfl) (by rfl)
  exact ⟨h.1, h.2⟩

/- ## C5 -/

/-- The PV-resolution step emits only getPV events, never a plugin
invocation. -/
lemma getPV_trace_has_no_plugin_events (w : World) (s : VolumeSnapshotDataSpec)
    (t : String) :
    Event.pluginRestore t ∉ (Crd.getPVFromVolumeSnapshotDataSpec w s).2 := by
  unfold Crd.getPVFromVolumeSnapshotDataSpec
  rcases s.persistentVolumeRef with _ | ref
  · simp
  · by_cases h : ref.name = ""
    · simp [h]
    · rcases hg : getPV w ref.name with _ | pv <;> simp [h, hg]

/-- C5 counterexample: SnapshotData d1 has zero populated source variants yet
references PV pv0 whose spec has a hostPath location; with the hostPath
plugin registered, the CRD-variant Provision does invoke the plugin's
SnapshotRestore (the pluginRestore event is in the trace) and does not fail
with UnsupportedVolumeType — it panics in snapshotRestore — refuting the
claim as stated. -/
theorem c5_counterexample_crd_restores_without_variant :
    (Crd.Provision { identity := "prov-A" } [("hostPath", failingPlugin)]
        exWorldNoVariant exOptions).2
      = [.getSnapshot "ns1" "s1", .getSnapshotData "d1", .getPV "pv0",
         .pluginRestore "hostPath"] ∧
    (Crd.Provision { identity := "prov-A" } [("hostPath", failingPlugin)]
        exWorldNoVariant exOptions).1
      = .panicked "invalid memory address or nil pointer dereference" := by
  exact ⟨rfl, rfl⟩

/-- C5 (amended): in the TPR variant the claim holds as stated: a resolved
SnapshotData with no populated source variant, or whose determined tag has no
registered plugin, makes Provision fail with the UnsupportedVolumeType error
and no plugin restore is invoked.  In the CRD variant the volume type tag is
determined from the referenced PV's spec instead of the SnapshotData union,
and the claim holds in that form: when the tag determined from the PV spec is
empty or unregistered, Provision fails with the UnsupportedVolumeType error
and no plugin restore is invoked. -/
theorem c5_amended_unsupported_type_guard
    (p : SnapshotProvisioner) (plugins : PluginMap) (w : World)
    (options : VolumeOptions) (snapName : String)
    (snapshot : VolumeSnapshot) (snapshotData : VolumeSnapshotData)
    (hsel : options.pvc.hasSelector = false)
    (hann : lookupStr options.pvc.annotations snapshotPVCAnn = some snapName)
    (hsnap : getSnapshot w options.pvc.ns snapName = some snapshot)
    (hbound : snapshot.spec.snapshotDataName ≠ "")
    (hdata : getSnapshotData w snapshot.spec.snapshotDataName = some snapshotData) :
    (snapshotData.spec.hostPath = none →
      snapshotData.spec.awsElasticBlockStore = none →
      Tpr.Provision p plugins w options
        = (.ok (none, some (.wrap ("failed to create a PV from snapshot " ++ snapName)
            (.msg "unsupported volume type found in PV"))),
           [.getSnapshot options.pvc.ns snapName,
            .getSnapshotData snapshot.spec.snapshotDataName])) ∧
    (∀ tag, GetSupportedVolumeFromSnapshotDataSpec snapshotData.spec = tag →
      tag ≠ "" → lookupPlugin plugins tag = none →
      Tpr.Provision p plugins w options
        = (.ok (none, some (.wrap ("failed to create a PV from snapshot " ++ snapName)
            (.msg (tag ++ " is not supported volume")))),
           [.getSnapshot options.pvc.ns snapName,
            .getSnapshotData snapshot.spec.snapshotDataName])) ∧
    (∀ pvRec trg,
      Crd.getPVFromVolumeSnapshotDataSpec w snapshotData.spec
          = ((some pvRec, none), trg) →
      (GetSupportedVolumeFromPVSpec pvRec.spec = "" →
        Crd.Provision p plugins w options
          = (.ok (none, some (.wrap ("failed to create a PV from snapshot " ++ snapName)
              (.msg "unsupported volume type found in PV"))),
             [Event.getSnapshot options.pvc.ns snapName,
              Event.getSnapshotData snapshot.spec.snapshotDataName] ++ trg) ∧
        ∀ t, Event.pluginRestore t ∉ (Crd.Provision p plugins w options).2) ∧
      (∀ tag, GetSupportedVolumeFromPVSpec pvRec.spec = tag → tag ≠ "" →
        lookupPlugin plugins tag = none →
        Crd.Provision p plugins w options
          = (.ok (none, some (.wrap ("failed to create a PV from snapshot " ++ snapName)
              (.msg (tag ++ " is not supported volume")))),
             [Event.getSnapshot options.pvc.ns snapName,
              Event.getSnapshotData snapshot.spec.snapshotDataName] ++ trg) ∧
        ∀ t, Event.pluginRestore t ∉ (Crd.Provision p plugins w options).2)) := by
  refine ⟨?_, ?_, ?_⟩
  · intro h1 h2
    have htag : GetSupportedVolumeFromSnapshotDataSpec snapshotData.spec = "" := by
      simp [GetSupportedVolumeFromSnapshotDataSpec, h1, h2]
    simp [Tpr.Provision, Tpr.snapshotRestore, GoError.errorf, hsel, hann, hsnap,
      hbound, hdata, htag]
  · intro tag htag hne hplug
    subst htag
    simp [Tpr.Provision, Tpr.snapshotRestore, GoError.errorf, hsel, hann, hsnap,
      hbound, hdata, hne, hplug]
  · intro pvRec trg hpv
    have hng : ∀ t, Event.pluginRestore t ∉ trg := by
      intro t
      have := getPV_trace_has_no_plugin_events w snapshotData.spec t
      rw [hpv] at this
      exact this
    constructor
    · intro htag
      have heq : Crd.Provision p plugins w options
          = (.ok (none, some (.wrap ("failed to create a PV from snapshot " ++ snapName)
              (.msg "unsupported volume type found in PV"))),
             [Event.getSnapshot options.pvc.ns snapName,
              Event.getSnapshotData snapshot.spec.snapshotDataName] ++ trg) := by
        simp [Crd.Provision, Crd.snapshotRestore, GoError.errorf, hsel, hann, hsnap,
          hbound, hdata, hpv, htag]
      refine ⟨heq, ?_⟩
      intro t
      rw [heq]
      simp [hng t]
    · intro tag htag hne hplug
      subst htag
      have heq : Crd.Provision p plugins w options
          = (.ok (none, some (.wrap ("failed to create a PV from snapshot " ++ snapName)
              (.msg (GetSupportedVolumeFromPVSpec pvRec.spec ++ " is not supported volume")))),
             [Event.getSnapshot options.pvc.ns snapName,
              Event.getSnapshotData snapshot.spec.snapshotDataName] ++ trg) := by
        simp [Crd.Provision, Crd.snapshotRestore, GoError.errorf, hsel, hann, hsnap,
          hbound, hdata, hpv, hne, hplug]
      refine ⟨heq, ?_⟩
      intro t
      rw [heq]
      simp [hng t]

/-- C5 witness for the amended claim: with an empty plugin registry, the TPR
Provision on d1 (hostPath source, tag unregistered) and the CRD Provision on
d1 referencing the hostPath PV pv0 (tag from the PV spec unregistered) both
fail with the UnsupportedVolumeType error and invoke no plugin restore. -/
theorem c5_amended_unsupported_type_guard_witness :
    Tpr.Provision { identity := "prov-A" } [] exWorldHost exOptions
      = (.ok (none, some (.wrap "failed to create a PV from snapshot s1"
          (.msg "hostPath is not supported volume"))),
         [.getSnapshot "ns1" "s1", .getSnapshotData "d1"]) ∧
    Crd.Provision { identity := "prov-A" } [] exWorldNoVariant exOptions
      = (.ok (none, some (.wrap "failed to create a PV from snapshot s1"
          (.msg "hostPath is not supported volume"))),
         [Event.getSnapshot "ns1" "s1", Event.getSnapshotData "d1"]
           ++ [Event.getPV "pv0"]) := by
  constructor
  · exact (c5_amended_unsupported_type_guard { identity := "prov-A" } []
      exWorldHost exOptions "s1" exSnapshot exDataHost
      (by rfl) (by rfl) (by rfl) (by decide) (by rfl)).2.1
      "hostPath" (by rfl) (by decide) (by rfl)
  · exact ((c5_amended_unsupported_type_guard { identity := "prov-A" } []
      exWorldNoVariant exOptions "s1" exSnapshot exDataNoVariant
      (by rfl) (by rfl) (by rfl) (by decide) (by rfl)).2.2
      exPV [.getPV "pv0"] (by rfl)).2
      "hostPath" (by rfl) (by decide) (by rfl) |>.1

/- ## C8 -/

/-- Every event the TPR snapshotRestore emits is a read or a plugin
invocation, never a record write. -/
lemma tpr_restore_trace_reads (plugins : PluginMap) (n : String)
    (d : VolumeSnapshotData) (o : VolumeOptions) :
    ((Tpr.snapshotRestore plugins n d o).2.all fun e => !e.isRecordWrite) = true := by
  unfold Tpr.snapshotRestore
  by_cases h : GetSupportedVolumeFromSnapshotDataSpec d.spec = ""
  · simp [h]
  · rcases hp : lookupPlugin plugins (GetSupportedVolumeFromSnapshotDataSpec d.spec)
        with _ | plugin
    · simp [h, hp]
    · rcases hr : plugin.snapshotRestore d o.pvc o.pvName o.parameters
          with ⟨pvSrc, labels, err⟩
      rcases err with _ | e <;> rcases pvSrc with _ | s <;>
        simp [h, hp, hr, Event.isRecordWrite]

/-- Every event the PV-resolution step emits is a read. -/
lemma crd_getpv_trace_reads (w : World) (s : VolumeSnapshotDataSpec) :
    ((Crd.getPVFromVolumeSnapshotDataSpec w s).2.all fun e => !e.isRecordWrite) = true := by
  unfold Crd.getPVFromVolumeSnapshotDataSpec
  rcases s.persistentVolumeRef with _ | ref
  · simp
  · by_cases h : ref.name = ""
    · simp [h]
    · rcases hg : getPV w ref.name with _ | pv <;>
        simp [h, hg, Event.isRecordWrite]

/-- Every event the CRD snapshotRestore emits is a read or a plugin
invocation, never a record write. -/
lemma crd_restore_trace_reads (plugins : PluginMap) (w : World) (n : String)
    (d : VolumeSnapshotData) (o : VolumeOptions) :
    ((Crd.snapshotRestore plugins w n d o).2.all fun e => !e.isRecordWrite) = true := by
  have hg := crd_getpv_trace_reads w d.spec
  unfold Crd.snapshotRestore
  rcases hpv : Crd.getPVFromVolumeSnapshotDataSpec w d.spec with ⟨⟨pvOpt, perr⟩, tr⟩
  rw [hpv] at hg
  rcases perr with _ | e
  · rcases pvOpt with _ | pv
    · simpa [hpv] using hg
    · by_cases h : GetSupportedVolumeFromPVSpec pv.spec = ""
      · simpa [hpv, h] using hg
      · rcases hp : lookupPlugin plugins (GetSupportedVolumeFromPVSpec pv.spec)
            with _ | plugin
        · simpa [hpv, h, hp] using hg
        · rcases hr : plugin.snapshotRestore d o.pvc o.pvName o.parameters
              with ⟨pvSrc, labels, err⟩
          rcases err with _ | e2 <;> rcases pvSrc with _ | s2 <;>
            simp_all [hpv, h, hp, hr, Event.isRecordWrite, List.all_append]
  · simpa [hpv] using hg

/-- Every event a TPR Provision run emits, on every path, is a read or a
plugin invocation, never a record write. -/
lemma tpr_provision_trace_reads (p : SnapshotProvisioner) (plugins : PluginMap)
    (w : World) (options : VolumeOptions) :
    ((Tpr.Provision p plugins w options).2.all fun e => !e.isRecordWrite) = true := by
  unfold Tpr.Provision
  by_cases hsel : options.pvc.hasSelector
  · simp [hsel]
  · rcases hann : lookupStr options.pvc.annotations snapshotPVCAnn with _ | snapName
    · simp [hsel, hann]
    · rcases hsnap : getSnapshot w options.pvc.ns snapName with _ | snapshot
      · simp [hsel, hann, hsnap, Event.isRecordWrite]
      · by_cases hbound : snapshot.spec.snapshotDataName = ""
        · simp [hsel, hann, hsnap, hbound, Event.isRecordWrite]
        · rcases hdata : getSnapshotData w snapshot.spec.snapshotDataName
              with _ | snapshotData
          · simp [hsel, hann, hsnap, hbound, hdata, Event.isRecordWrite]
          · have hres := tpr_restore_trace_reads plugins
              snapshot.spec.snapshotDataName snapshotData options
            rcases hr : Tpr.snapshotRestore plugins
                snapshot.spec.snapshotDataName snapshotData options with ⟨out, tr⟩
            rw [hr] at hres
            rcases out with ⟨pvSrc, labels, err⟩ | m
            · rcases err with _ | e <;> rcases pvSrc with _ | src <;>
                simp_all [hsel, hann, hsnap, hbound, hdata, hr,
                  Event.isRecordWrite, List.all_append]
            · simp_all [hsel, hann, hsnap, hbound, hdata, hr,
                Event.isRecordWrite, List.all_append]

/-- Every event a CRD Provision run emits, on every path, is a read or a
plugin invocation, never a record write. -/
lemma crd_provision_trace_reads (p : SnapshotProvisioner) (plugins : PluginMap)
    (w : World) (options : VolumeOptions) :
    ((Crd.Provision p plugins w options).2.all fun e => !e.isRecordWrite) = true := by
  unfold Crd.Provision
  by_cases hsel : options.pvc.hasSelector
  · simp [hsel]
  · rcases hann : lookupStr options.pvc.annotations snapshotPVCAnn with _ | snapName
    · simp [hsel, hann]
    · rcases hsnap : getSnapshot w options.pvc.ns snapName with _ | snapshot
      · simp [hsel, hann, hsnap, Event.isRecordWrite]
      · by_cases hbound : snapshot.spec.snapshotDataName = ""
        · simp [hsel, hann, hsnap, hbound, Event.isRecordWrite]
        · rcases hdata : getSnapshotData w snapshot.spec.snapshotDataName
              with _ | snapshotData
          · simp [hsel, hann, hsnap, hbound, hdata, Event.isRecordWrite]
          · have hres := crd_restore_trace_reads plugins w
              snapshot.spec.snapshotDataName snapshotData options
            rcases hr : Crd.snapshotRestore plugins w
                snapshot.spec.snapshotDataName snapshotData options with ⟨out, tr⟩
            rw [hr] at hres
            rcases out with ⟨pvSrc, labels, err⟩ | m
            · rcases err with _ | e <;> rcases pvSrc with _ | src <;>
                simp_all [hsel, hann, hsnap, hbound, hdata, hr,
                  Event.isRecordWrite, List.all_append]
            · simp_all [hsel, hann, hsnap, hbound, hdata, hr,
                Event.isRecordWrite, List.all_append]

/-- C8: for every Provision call of either variant, on every execution path
(success, every failure, even the panicking paths), the interaction trace
contains no Snapshot or SnapshotData write: the reconciler only reads the two
record kinds (its client interface's put operations are never emitted), and
its own state is the immutable identity string it was constructed with. -/
theorem c8_provision_never_writes_records (p : SnapshotProvisioner)
    (plugins : PluginMap) (w : World) (options : VolumeOptions) :
    ((Tpr.Provision p plugins w options).2.all fun e => !e.isRecordWrite) = true ∧
    ((Crd.Provision p plugins w options).2.all fun e => !e.isRecordWrite) = true := by
  exact ⟨tpr_provision_trace_reads p plugins w options,
    crd_provision_trace_reads p plugins w options⟩

/- ## C7 -/

/-- Extracting entries under a directory no existing file lies under, then
reading the tree back at that directory, returns exactly the entries. -/
lemma treeAt_extracted (dir : Hostpath.FPath) (A old : List (Hostpath.FPath × List Nat))
    (hfresh : old.filter (fun e => dir.isPrefixOf e.1) = []) :
    Hostpath.treeAt (A.map (fun e => (dir ++ e.1, e.2)) ++ old) dir = A := by
  unfold Hostpath.treeAt
  rw [List.filter_append, hfresh, List.append_nil]
  induction A with
  | nil => rfl
  | cons a rest ih =>
    have hpre : (dir.isPrefixOf (dir ++ a.1)) = true := by
      rw [List.isPrefixOf_iff_prefix]
      exact List.prefix_append _ _
    simp only [List.map_cons, List.filter_cons, hpre, if_true]
    simp only [List.map_cons] at ih ⊢
    rw [ih]
    simp [List.drop_left]

/-- C7: for the baseline hostpath backend and every source path, restoring
the artifact produced by SnapshotCreate on that path reproduces the original
path's file tree content byte-for-byte in the newly created restore
location (the freshly named directory under the fixed restore area that
SnapshotRestore reports). -/
theorem c7_hostpath_restore_after_create_roundtrip (fs : Hostpath.HostFS)
    (p : Hostpath.FPath)
    (hfresh : fs.files.filter (fun e =>
        (Hostpath.restorePoint ++ [Hostpath.uuidGen (fs.uuidCounter + 1)]).isPrefixOf e.1)
      = []) :
    (Hostpath.SnapshotCreate fs true (some p)).err = none ∧
    (Hostpath.SnapshotRestore (Hostpath.SnapshotCreate fs true (some p)).fs true
        (Hostpath.SnapshotCreate fs true (some p)).source).err = none ∧
    (Hostpath.SnapshotRestore (Hostpath.SnapshotCreate fs true (some p)).fs true
        (Hostpath.SnapshotCreate fs true (some p)).source).pvSource
      = some (Hostpath.restorePoint ++ [Hostpath.uuidGen (fs.uuidCounter + 1)]) ∧
    Hostpath.treeAt
        (Hostpath.SnapshotRestore (Hostpath.SnapshotCreate fs true (some p)).fs true
          (Hostpath.SnapshotCreate fs true (some p)).source).fs.files
        (Hostpath.restorePoint ++ [Hostpath.uuidGen (fs.uuidCounter + 1)])
      = Hostpath.treeAt fs.files p := by
  refine ⟨rfl, ?_, ?_, ?_⟩
  · simp [Hostpath.SnapshotCreate, Hostpath.tarCreate, Hostpath.SnapshotRestore,
      Hostpath.tarExtract, lookupAssoc]
  · simp [Hostpath.SnapshotCreate, Hostpath.tarCreate, Hostpath.SnapshotRestore,
      Hostpath.tarExtract, lookupAssoc]
  · simp only [Hostpath.SnapshotCreate, Hostpath.tarCreate, Hostpath.SnapshotRestore,
      Hostpath.tarExtract, lookupAssoc, if_true, eq_self_iff_true, ite_true]
    exact treeAt_extracted _ _ _ hfresh

/-- A one-file host state used to witness the round trip. -/
def exFS : Hostpath.HostFS :=
  { files := [(["data", "a.txt"], [104, 105])]
    archives := []
    uuidCounter := 0 }

/-- C7 witness: on a host holding /data/a.txt with bytes 104 105, creating a
snapshot of /data and restoring it yields the same tree under the fresh
restore directory. -/
theorem c7_hostpath_restore_after_create_roundtrip_witness :
    exFS.files.filter (fun e =>
        (Hostpath.restorePoint ++ [Hostpath.uuidGen (exFS.uuidCounter + 1)]).isPrefixOf e.1)
      = [] ∧
    Hostpath.treeAt
        (Hostpath.SnapshotRestore (Hostpath.SnapshotCreate exFS true (some ["data"])).fs
          true (Hostpath.SnapshotCreate exFS true (some ["data"])).source).fs.files
        (Hostpath.restorePoint ++ [Hostpath.uuidGen (exFS.uuidCounter + 1)])
      = Hostpath.treeAt exFS.files ["data"] :=
  ⟨by decide,
   (c7_hostpath_restore_after_create_roundtrip exFS ["data"] (by decide)).2.2.2⟩
